import Mathlib

/-!
Verification of the Care-Sync core against its specification.

This file gives a shallow embedding, in Lean 4, of the parts of the
Care-Sync repository that the verified claims are about:

* the data model of `src/database.py` (users, health records, access
  grants), with machine ids as `Nat`, timestamps as `Int` and SQL rows
  as Lean structures;
* the authentication and access-control endpoints of `src/api.py`
  (`register_user`, `get_current_user`, `grant_record_access`,
  `get_patient_records`);
* the health-metric analysis of `src/utils.py`
  (`analyze_health_metrics`, `calculate_trend`, `check_critical_values`)
  with metric values as `Rat` so that the Python threshold constants
  (36.1, factors 0.8 and 1.2) are exact;
* the file-metadata extraction of `src/utils.py`
  (`get_file_type`, `extract_text_from_pdf`, `extract_metadata_from_file`),
  with the outcome of each fallible third-party call (PyPDF2, PIL) passed
  in as an `Except` value.

Library calls whose behaviour the repository does not define are
embedded by their documented contract: `jose.jwt.decode` either returns
the payload or signals an invalid or expired token, and the pandas
`DataFrame.sort_values` call (default `kind="quicksort"`, which the
pandas documentation does not guarantee to be stable) is embedded as an
arbitrary function that returns some permutation of its input sorted by
the key, quantified over in each theorem.
-/

namespace CareSync

/-- HTTP-level errors raised by the endpoints of `src/api.py`:
401 Unauthorized, 403 Forbidden, 404 Not Found, 400 Bad Request. -/
inductive ApiError where
  | unauthorized
  | forbidden
  | notFound
  | badRequest
deriving DecidableEq, Repr

/-- Role strings of `config.UserRole` (`src/config.py`). -/
def UserRole.PATIENT : String := "patient"

/-- Role string for doctors (`config.UserRole.DOCTOR`). -/
def UserRole.DOCTOR : String := "doctor"

/-- Role string for admins (`config.UserRole.ADMIN`). -/
def UserRole.ADMIN : String := "admin"

/-- A row of the `users` table (`src/database.py`, class `User`).
The role is a plain string column; `is_active` defaults to true. -/
structure User where
  id : Nat
  username : String
  email : String
  hashed_password : String
  role : String
  full_name : String
  is_active : Bool
deriving DecidableEq, Repr

/-- A row of the `health_records` table (`src/database.py`,
class `HealthRecord`), restricted to the columns the claims touch. -/
structure HealthRecord where
  id : Nat
  patient_id : Nat
deriving DecidableEq, Repr

/-- A row of the `record_access` table (`src/database.py`,
class `RecordAccess`): a grant edge from a record to a doctor, with an
optional expiry timestamp and an active flag (default true). -/
structure RecordAccess where
  id : Nat
  record_id : Nat
  doctor_id : Nat
  granted_by : Nat
  expires_at : Option Int
  is_active : Bool
deriving DecidableEq, Repr

/-- The relational store: the three tables the verified endpoints read
and write. -/
structure DB where
  users : List User
  records : List HealthRecord
  grants : List RecordAccess
deriving DecidableEq, Repr

/-- A decoded bearer token as seen by `jose.jwt.decode`: whether its
signature verifies, whether its expiry claim has passed, and its
payload as an association list of claims. -/
structure Token where
  sigValid : Bool
  expired : Bool
  payload : List (String × String)
deriving DecidableEq, Repr

/-- Embedding of `verify_token` (`src/utils.py` lines 53 to 59):
`jwt.decode` returns the payload, and raises `JWTError` (mapped to
`None`) when the signature is invalid or the token is expired. -/
def verify_token (t : Token) : Option (List (String × String)) :=
  if t.sigValid && !t.expired then some t.payload else none

/-- Embedding of `get_current_user` (`src/api.py` lines 72 to 100):
reject with 401 when the token does not verify, when the `sub` claim is
absent, or when no user row has that username; otherwise return the
first user row with that username.  The `is_active` column is not
consulted. -/
def get_current_user (db : DB) (t : Token) : Except ApiError User :=
  match verify_token t with
  | none => .error .unauthorized
  | some payload =>
    match payload.lookup "sub" with
    | none => .error .unauthorized
    | some username =>
      match db.users.find? (fun u => u.username == username) with
      | none => .error .unauthorized
      | some u => .ok u

/-- The request body of `POST /auth/register` (`src/api.py`,
class `UserCreate`), restricted to the fields the claims touch. -/
structure UserCreate where
  username : String
  email : String
  password : String
  role : String
  full_name : String
deriving DecidableEq, Repr

/-- Embedding of `register_user` (`src/api.py` lines 103 to 135):
reject with 400 when a user with the same username or email exists,
otherwise insert a row whose role is the role string of the request,
verbatim, and whose `is_active` flag takes the column default `true`.
The password hash `bcrypt` computes is passed in as a function, and
the autoincrement id is taken as one past the table length. -/
def register_user (hash : String → String) (db : DB) (u : UserCreate) :
    Except ApiError (DB × Nat) :=
  if db.users.any (fun x => x.username == u.username || x.email == u.email) then
    .error .badRequest
  else
    let uid := db.users.length + 1
    let newUser : User :=
      { id := uid, username := u.username, email := u.email,
        hashed_password := hash u.password, role := u.role,
        full_name := u.full_name, is_active := true }
    .ok ({ db with users := db.users ++ [newUser] }, uid)

/-- The request body of `POST /records/grant-access` (`src/api.py`,
class `RecordAccessGrant`). -/
structure RecordAccessGrant where
  record_id : Nat
  doctor_id : Nat
  expires_at : Option Int
deriving DecidableEq, Repr

/-- Embedding of `grant_record_access` (`src/api.py` lines 263 to 311):
403 unless the caller is a patient; 404 when no record row has the
requested id with the caller as owner; 404 when no user row has the
requested doctor id with role `doctor` (the query filters on
`User.role == UserRole.DOCTOR` only, not on `is_active`); otherwise
append a grant row with `is_active` true.  An error is raised before
any row is added, so the error cases return no new state. -/
def grant_record_access (db : DB) (cur : User) (g : RecordAccessGrant) :
    Except ApiError DB :=
  if cur.role != UserRole.PATIENT then .error .forbidden
  else
    match db.records.find? (fun r => r.id == g.record_id && r.patient_id == cur.id) with
    | none => .error .notFound
    | some _ =>
      match db.users.find? (fun u => u.id == g.doctor_id && u.role == UserRole.DOCTOR) with
      | none => .error .notFound
      | some _ =>
        let newGrant : RecordAccess :=
          { id := db.grants.length + 1, record_id := g.record_id,
            doctor_id := g.doctor_id, granted_by := cur.id,
            expires_at := g.expires_at, is_active := true }
        .ok { db with grants := db.grants ++ [newGrant] }

/-- Embedding of `get_patient_records` (`src/api.py` lines 438 to 481):
403 unless the caller is a doctor; otherwise the join of
`health_records` with `record_access` filtered on
`RecordAccess.doctor_id == current_user.id`,
`RecordAccess.is_active == True` and
`HealthRecord.patient_id == patient_id`.  The query never reads the
clock and never touches `expires_at`, so the function takes no `now`
argument: a record is returned exactly when some active grant row names
the doctor, expired or not. -/
def get_patient_records (db : DB) (cur : User) (patient_id : Nat) :
    Except ApiError (List HealthRecord) :=
  if cur.role != UserRole.DOCTOR then .error .forbidden
  else
    .ok (db.records.filter (fun r =>
      r.patient_id == patient_id &&
      db.grants.any (fun a =>
        a.record_id == r.id && a.doctor_id == cur.id && a.is_active)))

/-- Modelled from the spec: `listAccessibleRecords(doctorId, patientId)`
as section 4.3 describes it, returning only records where an active and
non-expired grant exists for the doctor, with the expiry check applied
at read time (`is_active == true` and `expires_at` null or not earlier
than `now`).  The expiry comparison is the one the spec data model
states: a grant with `now > expires_at` is not effective. -/
def listAccessibleRecords_specModel (now : Int) (db : DB) (cur : User)
    (patient_id : Nat) : Except ApiError (List HealthRecord) :=
  if cur.role != UserRole.DOCTOR then .error .forbidden
  else
    .ok (db.records.filter (fun r =>
      r.patient_id == patient_id &&
      db.grants.any (fun a =>
        a.record_id == r.id && a.doctor_id == cur.id && a.is_active &&
        (match a.expires_at with
         | none => true
         | some e => !(now > e)))))

/-! ### Health metrics analyzer (`src/utils.py` lines 158 to 207) -/

/-- One health measurement as handed to `analyze_health_metrics`
(`src/api.py` lines 525 to 533 builds these dictionaries from
`HealthMetric` rows): a metric name, a numeric value (a `Float` column,
embedded as `Rat` so arithmetic on the threshold constants is exact)
and a `recorded_at` timestamp. -/
structure Measurement where
  metric_name : String
  value : Rat
  recorded_at : Int
deriving DecidableEq, Repr

/-- Embedding of `config.CRITICAL_VALUES` (`src/config.py` lines 57 to
63): the fixed threshold table, as pairs (min, max). -/
def CRITICAL_VALUES (name : String) : Option (Rat × Rat) :=
  if name == "blood_pressure_systolic" then some (90, 140)
  else if name == "blood_pressure_diastolic" then some (60, 90)
  else if name == "heart_rate" then some (60, 100)
  else if name == "temperature" then some (361/10, 372/10)
  else if name == "blood_sugar" then some (70, 140)
  else none

/-- One alert dictionary built by `check_critical_values`: the
offending value, the threshold pair it was checked against, and the
severity string. -/
structure Alert where
  value : Rat
  threshold_min : Rat
  threshold_max : Rat
  severity : String
deriving DecidableEq, Repr

/-- Embedding of `check_critical_values` (`src/utils.py` lines 193 to
207): when the metric name has a threshold entry, every value strictly
below min or strictly above max yields one alert, tagged `critical`
when the value is below `min * 0.8` or above `max * 1.2`, else
`warning`; a name outside the table yields no alerts. -/
def check_critical_values (metric_name : String) (values : List Rat) :
    List Alert :=
  match CRITICAL_VALUES metric_name with
  | none => []
  | some (mn, mx) =>
    values.filterMap (fun v =>
      if v < mn ∨ v > mx then
        some { value := v, threshold_min := mn, threshold_max := mx,
               severity :=
                 if v < mn * (8/10) ∨ v > mx * (12/10) then "critical"
                 else "warning" }
      else none)

/-- Embedding of `calculate_trend` (`src/utils.py` lines 180 to 191):
fewer than two points give `insufficient_data`, otherwise the last
value is compared with the first.  For lists of length at least two the
`getD` defaults are never read. -/
def calculate_trend (values : List Rat) : String :=
  if values.length < 2 then "insufficient_data"
  else
    let first := values.head?.getD 0
    let last := values.getLast?.getD 0
    if last > first then "increasing"
    else if last < first then "decreasing"
    else "stable"

/-- The per-metric summary dictionary built by `analyze_health_metrics`
(`src/utils.py` lines 169 to 176).  The pandas `mean` of a group is its
sum over its size; groups are nonempty by construction (each analysed
name occurs in the data), so the `0 / 0` value of the empty case is
never produced, and `minimum?` and `maximum?` are `some` on every
group. -/
structure Summary where
  latest_value : Option Rat
  average : Rat
  min : Option Rat
  max : Option Rat
  trend : String
  critical_alerts : List Alert
deriving DecidableEq, Repr

/-- The comparison key of `sort_values("recorded_at")`. -/
def recLE (a b : Measurement) : Prop := a.recorded_at ≤ b.recorded_at

instance : DecidableRel recLE := fun a b =>
  inferInstanceAs (Decidable (a.recorded_at ≤ b.recorded_at))

instance : IsTotal Measurement recLE :=
  ⟨fun a b => Int.le_total a.recorded_at b.recorded_at⟩

instance : IsTrans Measurement recLE := ⟨fun _ _ _ h h' => le_trans h h'⟩

/-- A function is a valid embedding of
`metric_df.sort_values("recorded_at")` when it returns a permutation of
its input that is sorted by `recorded_at`.  The pandas call uses the
default `kind="quicksort"`, which the pandas documentation lists as not
stable (only `mergesort` and `stable` are), so the order among entries
with equal `recorded_at` is unspecified and every claim about the
analyzer is quantified over all valid sort functions. -/
def ValidSort (s : List Measurement → List Measurement) : Prop :=
  ∀ l : List Measurement, (s l).Perm l ∧ (s l).Sorted recLE

/-- Embedding of `df["metric_name"].unique()` (`src/utils.py` line
166): the distinct names in first-occurrence order. -/
def uniqueNames : List String → List String
  | [] => []
  | x :: xs => x :: uniqueNames (xs.filter (fun y => y != x))
termination_by l => l.length
decreasing_by
  simp_wf
  exact Nat.lt_succ_of_le (List.length_filter_le _ _)

/-- The summary of one sorted metric group (`src/utils.py` lines 169 to
176): `latest_value` is `iloc[-1]` of the sorted frame (`None` on an
empty frame), the aggregates and the trend are taken over the sorted
value column, and the alerts come from `check_critical_values`. -/
def summaryOfGroup (metric_name : String) (sortedGroup : List Measurement) :
    Summary :=
  let vals := sortedGroup.map (fun m => m.value)
  { latest_value := sortedGroup.getLast?.map (fun m => m.value),
    average := vals.sum / vals.length,
    min := vals.min?,
    max := vals.max?,
    trend := calculate_trend vals,
    critical_alerts := check_critical_values metric_name vals }

/-- Embedding of `analyze_health_metrics` (`src/utils.py` lines 158 to
178), parameterized by the sort function (see `ValidSort`): for each
distinct metric name, in first-occurrence order, the rows with that
name are selected (a pandas boolean filter, which preserves input
order), sorted by `recorded_at`, and summarized.  Empty input yields
the empty map through the same formula. -/
def analyze_health_metrics (sortImpl : List Measurement → List Measurement)
    (metrics_data : List Measurement) : List (String × Summary) :=
  (uniqueNames (metrics_data.map (fun m => m.metric_name))).map (fun name =>
    (name, summaryOfGroup name
      (sortImpl (metrics_data.filter (fun m => m.metric_name == name)))))

/-! ### File vault metadata extraction (`src/utils.py` lines 98 to 147) -/

/-- Embedding of `get_file_type` (`src/utils.py` lines 98 to 111):
extension-based MIME inference with an octet-stream fallback.  The
argument is the lowercased extension `os.path.splitext` returns. -/
def get_file_type (ext : String) : String :=
  if ext == ".pdf" then "application/pdf"
  else if ext == ".jpg" then "image/jpeg"
  else if ext == ".jpeg" then "image/jpeg"
  else if ext == ".png" then "image/png"
  else if ext == ".txt" then "text/plain"
  else if ext == ".doc" then "application/msword"
  else if ext == ".docx" then
    "application/vnd.openxmlformats-officedocument.wordprocessingml.document"
  else "application/octet-stream"

/-- The `str.startswith` test of Python, on the character lists of the
two strings (computable by the kernel, unlike `String.startsWith`). -/
def strStartsWith (s pre : String) : Bool :=
  pre.data.isPrefixOf s.data

/-- An uploaded file as the metadata extractor sees it: its extension,
its generic attributes, and the outcomes of the two fallible
third-party calls.  `pdfOutcome` is the result of reading the file with
PyPDF2 (text on success, the exception message on failure), and
`imageOutcome` the result of `PIL.Image.open` (width, height and format
on success). -/
structure FileInfo where
  ext : String
  size : Nat
  checksum : String
  now : String
  pdfOutcome : Except String String
  imageOutcome : Except String (Nat × Nat × String)
deriving Repr

/-- Embedding of `extract_text_from_pdf` (`src/utils.py` lines 113 to
124): the extracted text on success; on any exception the string
`Error extracting text: ` followed by the exception message.  The
failure case returns a string, it does not raise. -/
def extract_text_from_pdf (pdfOutcome : Except String String) : String :=
  match pdfOutcome with
  | .ok text => text
  | .error e => "Error extracting text: " ++ e

/-- The metadata dictionary `extract_metadata_from_file` builds: the
four generic keys are always present; the type-specific keys are
`Option` fields, `none` when the key is absent from the dictionary. -/
structure Metadata where
  file_size : Nat
  file_type : String
  upload_time : String
  checksum : String
  extracted_text : Option String
  image_dimensions : Option (Nat × Nat)
  image_format : Option String
deriving DecidableEq, Repr

/-- Embedding of `extract_metadata_from_file` (`src/utils.py` lines 125
to 147): the generic keys are computed unconditionally; for a PDF the
`extracted_text` key is always set (to the error string when extraction
failed, since `extract_text_from_pdf` catches its exceptions and
returns the message); for an image the two image keys are set on
success and skipped on failure (`except Exception: pass`).  The
function is total: no extraction outcome makes it raise. -/
def extract_metadata_from_file (f : FileInfo) : Metadata :=
  let ftype := get_file_type f.ext
  let base : Metadata :=
    { file_size := f.size, file_type := ftype, upload_time := f.now,
      checksum := f.checksum, extracted_text := none,
      image_dimensions := none, image_format := none }
  if ftype = "application/pdf" then
    { base with extracted_text := some (extract_text_from_pdf f.pdfOutcome) }
  else if strStartsWith ftype "image/" then
    match f.imageOutcome with
    | .ok (w, h, fmt) =>
      { base with image_dimensions := some (w, h), image_format := some fmt }
    | .error _ => base
  else base

/-! ### Sort functions used to instantiate `ValidSort` -/

/-- A stable valid sort: Mathlib insertion sort by `recorded_at`. -/
def sortByRecordedAt (l : List Measurement) : List Measurement :=
  l.insertionSort recLE

/-- A valid but tie-reversing sort: insertion sort applied to the
reversed input.  It returns a permutation sorted by `recorded_at`, but
entries with equal keys come out in reverse submission order. -/
def revTieSort (l : List Measurement) : List Measurement :=
  l.reverse.insertionSort recLE

/-- Modelled from the spec: the `latest` value section 4.4 describes,
namely the value of the chronologically last entry of the group with
ties broken by original submission order, obtained here with a stable
sort (insertion sort is stable). -/
def latestBySubmissionOrder (metrics_data : List Measurement)
    (name : String) : Option Rat :=
  ((metrics_data.filter (fun m => m.metric_name == name)).insertionSort
    recLE).getLast?.map (fun m => m.value)

/-! ### Helper lemmas -/

theorem validSort_sortByRecordedAt : ValidSort sortByRecordedAt := fun l =>
  ⟨List.perm_insertionSort recLE l, List.sorted_insertionSort recLE l⟩

theorem validSort_revTieSort : ValidSort revTieSort := fun l =>
  ⟨(List.perm_insertionSort recLE l.reverse).trans l.reverse_perm,
   List.sorted_insertionSort recLE l.reverse⟩

theorem perm_pair_eq {α : Type} {l : List α} {a b : α}
    (h : l.Perm [a, b]) : l = [a, b] ∨ l = [b, a] := by
  match l, h.length_eq with
  | [x, y], _ =>
    have hx : x = a ∨ x = b := by
      simpa using h.subset (List.mem_cons_self x [y])
    rcases hx with hxa | hxb
    · subst hxa
      left
      rw [List.perm_singleton.mp h.cons_inv]
    · subst hxb
      right
      rw [List.perm_singleton.mp ((h.trans (List.Perm.swap x a [])).cons_inv)]

theorem validSort_pair {s : List Measurement → List Measurement}
    (hs : ValidSort s) {a b : Measurement}
    (hab : a.recorded_at < b.recorded_at) : s [a, b] = [a, b] := by
  obtain ⟨hperm, hsort⟩ := hs [a, b]
  rcases perm_pair_eq hperm with h | h
  · exact h
  · exfalso
    rw [h] at hsort
    have hba : recLE b a := (List.sorted_cons.mp hsort).1 a (by simp)
    exact absurd hba (not_le.mpr hab)

theorem lookup_map_pair {β : Type} (f : String → β) (name : String) (s : β) :
    ∀ names : List String,
      (names.map (fun n => (n, f n))).lookup name = some s → s = f name := by
  intro names
  induction names with
  | nil => simp [List.lookup]
  | cons n rest ih =>
    simp only [List.map_cons, List.lookup]
    by_cases h : name = n
    · subst h
      intro hsome
      simp only [beq_self_eq_true] at hsome
      exact (Option.some.inj hsome).symm
    · intro hsome
      have hb : (name == n) = false := beq_eq_false_iff_ne.mpr h
      exact ih (by simpa [hb] using hsome)

theorem sorted_getLast_max :
    ∀ (l : List Measurement), l.Sorted recLE → ∀ (hne : l ≠ []),
      ∀ x ∈ l, x.recorded_at ≤ (l.getLast hne).recorded_at := by
  intro l
  induction l with
  | nil => intro _ hne; exact absurd rfl hne
  | cons a t ih =>
    intro hsort hne x hx
    cases t with
    | nil =>
      have : x = a := by simpa using hx
      subst this
      simp [List.getLast]
    | cons b t2 =>
      have hcons := List.sorted_cons.mp hsort
      rw [List.getLast_cons (by simp : b :: t2 ≠ [])]
      rcases List.mem_cons.mp hx with rfl | hx2
      · exact le_trans (hcons.1 _ (List.getLast_mem _)) (le_refl _)
      · exact ih hcons.2 (by simp) x hx2

/-! ### Claim C1 -/

/-- Claim C1: the claim states that `listAccessibleRecords` returns only
records with an active and non-expired grant, excluding a record whose
only grant has an `expires_at` in the past.  The code filters on
`is_active` only and never reads the clock: with one grant that is
active but expired (`expires_at = 0`, now = 100), `get_patient_records`
still returns the record, while the expiry-checking behaviour the spec
demands (`listAccessibleRecords_specModel`) excludes it.  This
evaluates the code at the failing input of the code_bug verdict. -/
theorem expired_grant_still_listed :
    get_patient_records
      { users := [⟨3, "dan", "dan@example.com", "h", "doctor", "Dan", true⟩],
        records := [⟨1, 2⟩],
        grants := [⟨1, 1, 3, 2, some 0, true⟩] }
      ⟨3, "dan", "dan@example.com", "h", "doctor", "Dan", true⟩ 2 =
      .ok [⟨1, 2⟩] ∧
    listAccessibleRecords_specModel 100
      { users := [⟨3, "dan", "dan@example.com", "h", "doctor", "Dan", true⟩],
        records := [⟨1, 2⟩],
        grants := [⟨1, 1, 3, 2, some 0, true⟩] }
      ⟨3, "dan", "dan@example.com", "h", "doctor", "Dan", true⟩ 2 =
      .ok [] :=
  ⟨rfl, rfl⟩

/-! ### Claim C2 -/

/-- Claim C2 counterexample: registering with the role string
`superuser` succeeds and persists a user whose stored role is outside
the set of patient, doctor and admin, refuting the claim that no call
to register can create such a user. -/
theorem register_unknown_role_counterexample :
    register_user (fun p => p) { users := [], records := [], grants := [] }
      { username := "eve", email := "eve@example.com", password := "pw",
        role := "superuser", full_name := "Eve" } =
      .ok ({ users := [⟨1, "eve", "eve@example.com", "pw", "superuser",
                       "Eve", true⟩],
             records := [], grants := [] }, 1) ∧
    ("superuser" ∈ [UserRole.PATIENT, UserRole.DOCTOR, UserRole.ADMIN]) =
      False := by
  constructor
  · rfl
  · simp [UserRole.PATIENT, UserRole.DOCTOR, UserRole.ADMIN]

/-- Claim C2 amended: `register_user` persists the role string of the
request verbatim, without validating membership in the role set; a
registration that passes the uniqueness check stores exactly the
requested role (so the stored role lies in the set only when the
request role does). -/
theorem register_persists_role_verbatim (hash : String → String) (db : DB)
    (u : UserCreate) (db' : DB) (uid : Nat)
    (h : register_user hash db u = .ok (db', uid)) :
    db'.users = db.users ++
      [{ id := db.users.length + 1, username := u.username, email := u.email,
         hashed_password := hash u.password, role := u.role,
         full_name := u.full_name, is_active := true }] := by
  unfold register_user at h
  split at h
  · exact absurd h (by simp)
  · simp only [Except.ok.injEq, Prod.mk.injEq] at h
    rw [← h.1]

/-- Witness for the amended claim C2 at a concrete registration. -/
theorem register_persists_role_verbatim_witness :
    (({ users := [⟨1, "alice", "alice@example.com", "pw", "patient",
                  "Alice", true⟩],
        records := [], grants := [] } : DB)).users =
      (({ users := [], records := [], grants := [] } : DB)).users ++
      [{ id := 1, username := "alice", email := "alice@example.com",
         hashed_password := (fun p : String => p) "pw", role := "patient",
         full_name := "Alice", is_active := true }] :=
  register_persists_role_verbatim (fun p => p)
    { users := [], records := [], grants := [] }
    { username := "alice", email := "alice@example.com", password := "pw",
      role := "patient", full_name := "Alice" }
    { users := [⟨1, "alice", "alice@example.com", "pw", "patient",
                "Alice", true⟩],
      records := [], grants := [] } 1 rfl

/-! ### Claim C3 -/

/-- Claim C3 counterexample: a valid token whose subject is a user row
with `is_active = false` still resolves to that user, refuting the
claim that `get_current_user` fails with 401 when the subject is not an
active user. -/
theorem inactive_user_still_resolves :
    get_current_user
      { users := [⟨1, "alice", "alice@example.com", "h", "patient",
                  "Alice", false⟩],
        records := [], grants := [] }
      { sigValid := true, expired := false, payload := [("sub", "alice")] } =
      .ok ⟨1, "alice", "alice@example.com", "h", "patient", "Alice", false⟩ ∧
    (⟨1, "alice", "alice@example.com", "h", "patient", "Alice",
      false⟩ : User).is_active = false :=
  ⟨rfl, rfl⟩

/-- Claim C3 amended: `get_current_user` fails with 401 exactly when
the signature is invalid or the token expired (`verify_token` returns
none), the `sub` claim is absent, or no user row has that username;
otherwise it returns the first user row with that username, whether or
not that user is active. -/
theorem get_current_user_spec (db : DB) (t : Token) :
    (get_current_user db t = .error .unauthorized ↔
      verify_token t = none ∨
      (∃ p, verify_token t = some p ∧ p.lookup "sub" = none) ∨
      (∃ p sub, verify_token t = some p ∧ p.lookup "sub" = some sub ∧
        db.users.find? (fun u => u.username == sub) = none)) ∧
    (∀ u, get_current_user db t = .ok u →
      ∃ p sub, verify_token t = some p ∧ p.lookup "sub" = some sub ∧
        db.users.find? (fun x => x.username == sub) = some u) := by
  constructor
  · constructor
    · intro herr
      unfold get_current_user at herr
      split at herr
      · next hv => exact Or.inl hv
      · next p hv =>
        split at herr
        · next hl => exact Or.inr (Or.inl ⟨p, hv, hl⟩)
        · next sub hl =>
          split at herr
          · next hf => exact Or.inr (Or.inr ⟨p, sub, hv, hl, hf⟩)
          · next u hf => exact absurd herr (by simp)
    · intro hcases
      rcases hcases with h | ⟨p, hp, hl⟩ | ⟨p, sub, hp, hl, hf⟩
      · simp [get_current_user, h]
      · simp [get_current_user, hp, hl]
      · simp [get_current_user, hp, hl, hf]
  · intro u hu
    unfold get_current_user at hu
    split at hu
    · exact absurd hu (by simp)
    · next p hv =>
      split at hu
      · exact absurd hu (by simp)
      · next sub hl =>
        split at hu
        · exact absurd hu (by simp)
        · next u' hf =>
          simp only [Except.ok.injEq] at hu
          exact ⟨p, sub, hv, hl, by rw [hf, hu]⟩

/-- Witness for the amended claim C3: an unsigned token is rejected
with 401, and a valid token for an existing user resolves to that
user row. -/
theorem get_current_user_spec_witness :
    get_current_user { users := [], records := [], grants := [] }
      { sigValid := false, expired := false, payload := [] } =
      .error .unauthorized ∧
    (∃ p sub,
      verify_token { sigValid := true, expired := false,
                     payload := [("sub", "bob")] } = some p ∧
      p.lookup "sub" = some sub ∧
      ({ users := [⟨7, "bob", "bob@example.com", "h", "doctor", "Bob",
                   true⟩],
         records := [], grants := [] } : DB).users.find?
        (fun x => x.username == sub) =
        some ⟨7, "bob", "bob@example.com", "h", "doctor", "Bob", true⟩) :=
  ⟨((get_current_user_spec { users := [], records := [], grants := [] }
      { sigValid := false, expired := false, payload := [] }).1).mpr
      (Or.inl rfl),
   (get_current_user_spec
      { users := [⟨7, "bob", "bob@example.com", "h", "doctor", "Bob",
                  true⟩],
        records := [], grants := [] }
      { sigValid := true, expired := false,
        payload := [("sub", "bob")] }).2
      ⟨7, "bob", "bob@example.com", "h", "doctor", "Bob", true⟩ rfl⟩

/-! ### Claim C8 -/

/-- Claim C8 counterexample: granting access to a doctor account whose
`is_active` flag is false succeeds and creates a grant row, refuting
the part of the claim that requires `doctor_id` to resolve to an
active doctor account. -/
theorem inactive_doctor_grant_succeeds :
    grant_record_access
      { users := [⟨2, "pat", "pat@example.com", "h", "patient", "Pat",
                  true⟩,
                  ⟨3, "doc", "doc@example.com", "h", "doctor", "Doc",
                  false⟩],
        records := [⟨1, 2⟩], grants := [] }
      ⟨2, "pat", "pat@example.com", "h", "patient", "Pat", true⟩
      ⟨1, 3, none⟩ =
      .ok { users := [⟨2, "pat", "pat@example.com", "h", "patient", "Pat",
                      true⟩,
                      ⟨3, "doc", "doc@example.com", "h", "doctor", "Doc",
                      false⟩],
            records := [⟨1, 2⟩],
            grants := [⟨1, 1, 3, 2, none, true⟩] } ∧
    (⟨3, "doc", "doc@example.com", "h", "doctor", "Doc",
      false⟩ : User).is_active = false :=
  ⟨rfl, rfl⟩

/-- Claim C8 amended: for a patient caller, `grant_record_access` fails
with 404 when the named record does not belong to the caller, or when
`doctor_id` does not resolve to a user row with role doctor (active or
not: the `is_active` flag is not consulted); on such failure the error
is raised before any row is added, so no grant is created. -/
theorem grant_access_notFound (db : DB) (cur : User) (g : RecordAccessGrant)
    (hrole : cur.role = UserRole.PATIENT)
    (h : db.records.find?
          (fun r => r.id == g.record_id && r.patient_id == cur.id) = none ∨
         db.users.find?
          (fun u => u.id == g.doctor_id && u.role == UserRole.DOCTOR) = none) :
    grant_record_access db cur g = .error .notFound := by
  rcases h with h | h
  · simp [grant_record_access, hrole, h]
  · cases hr : db.records.find?
        (fun r => r.id == g.record_id && r.patient_id == cur.id) with
    | none => simp [grant_record_access, hrole, hr]
    | some r => simp [grant_record_access, hrole, hr, h]

/-- Witness for the amended claim C8: with no records at all, a grant
request from a patient is rejected with 404. -/
theorem grant_access_notFound_witness :
    grant_record_access { users := [], records := [], grants := [] }
      ⟨2, "pat", "pat@example.com", "h", "patient", "Pat", true⟩
      ⟨1, 3, none⟩ = .error .notFound :=
  grant_access_notFound _ _ _ rfl (Or.inl rfl)

/-! ### Claim C9 -/

/-- Claim C9 counterexample: when PDF text extraction fails, the
`extracted_text` key is not omitted; it is set to an error-message
string, refuting the part of the claim that says a type-specific
extraction failure degrades to omission of the field. -/
theorem pdf_failure_text_not_omitted :
    (extract_metadata_from_file
      { ext := ".pdf", size := 10, checksum := "c", now := "t",
        pdfOutcome := .error "boom",
        imageOutcome := .error "img" }).extracted_text =
      some "Error extracting text: boom" ∧
    some "Error extracting text: boom" ≠ (none : Option String) :=
  ⟨rfl, by decide⟩

/-- Claim C9 amended: metadata extraction is total and the generic
fields (size, MIME type, upload time, checksum) are always produced; a
failed image extraction omits both image fields; a failed PDF
extraction does not omit `extracted_text` but sets it to the string
`Error extracting text: ` followed by the exception message. -/
theorem extract_metadata_best_effort (f : FileInfo) :
    ((extract_metadata_from_file f).file_size = f.size ∧
     (extract_metadata_from_file f).file_type = get_file_type f.ext ∧
     (extract_metadata_from_file f).upload_time = f.now ∧
     (extract_metadata_from_file f).checksum = f.checksum) ∧
    (∀ e, get_file_type f.ext = "application/pdf" →
      f.pdfOutcome = .error e →
      (extract_metadata_from_file f).extracted_text =
        some ("Error extracting text: " ++ e)) ∧
    (∀ e, strStartsWith (get_file_type f.ext) "image/" = true →
      f.imageOutcome = .error e →
      (extract_metadata_from_file f).image_dimensions = none ∧
      (extract_metadata_from_file f).image_format = none) := by
  refine ⟨?_, ?_, ?_⟩
  · simp only [extract_metadata_from_file]
    split_ifs <;> first
      | simp
      | (cases f.imageOutcome with
         | ok v => obtain ⟨w, h, fmt⟩ := v; simp
         | error e => simp)
  · intro e hpdf herr
    simp only [extract_metadata_from_file]
    rw [if_pos hpdf]
    simp [extract_text_from_pdf, herr]
  · intro e himg herr
    have hne : get_file_type f.ext ≠ "application/pdf" := by
      intro hc
      rw [hc] at himg
      exact absurd himg (by decide)
    simp only [extract_metadata_from_file]
    rw [if_neg hne, if_pos himg, herr]
    exact ⟨rfl, rfl⟩

/-- Witness for the amended claim C9 at a concrete failing PDF. -/
theorem extract_metadata_best_effort_witness :
    (extract_metadata_from_file
      { ext := ".pdf", size := 7, checksum := "k", now := "u",
        pdfOutcome := .error "oops",
        imageOutcome := .ok (1, 1, "PNG") }).extracted_text =
      some ("Error extracting text: " ++ "oops") :=
  (extract_metadata_best_effort
    { ext := ".pdf", size := 7, checksum := "k", now := "u",
      pdfOutcome := .error "oops",
      imageOutcome := .ok (1, 1, "PNG") }).2.1 "oops" rfl rfl

/-! ### Claim C4 -/

theorem critical_values_min_le_max (name : String) (mn mx : Rat)
    (h : CRITICAL_VALUES name = some (mn, mx)) : mn ≤ mx := by
  unfold CRITICAL_VALUES at h
  split_ifs at h
  all_goals
    simp only [Option.some.injEq, Prod.mk.injEq] at h
  all_goals
    obtain ⟨h1, h2⟩ := h
    subst h1
    subst h2
    norm_num

/-- Claim C4: for every metric with a configured threshold, an alert
with value v exists exactly when v occurs in the group and is strictly
out of band; every alert is tagged `critical` exactly when its value is
beyond 20 percent outside the threshold (below `min * 0.8` or above
`max * 1.2`), and `warning` otherwise; a metric without a configured
threshold never produces alerts. -/
theorem check_critical_values_spec (name : String) (values : List Rat) :
    (CRITICAL_VALUES name = none → check_critical_values name values = []) ∧
    (∀ mn mx, CRITICAL_VALUES name = some (mn, mx) →
      (∀ v, (∃ a ∈ check_critical_values name values, a.value = v) ↔
        (v ∈ values ∧ (v < mn ∨ v > mx))) ∧
      (∀ a ∈ check_critical_values name values,
        (a.severity = "critical" ↔
          (a.value < mn * (8/10) ∨ a.value > mx * (12/10))) ∧
        (a.severity = "critical" ∨ a.severity = "warning"))) := by
  constructor
  · intro h
    simp [check_critical_values, h]
  · intro mn mx h
    constructor
    · intro v
      constructor
      · rintro ⟨a, ha, rfl⟩
        simp only [check_critical_values, h] at ha
        rw [List.mem_filterMap] at ha
        obtain ⟨w, hw, hfw⟩ := ha
        by_cases hc : w < mn ∨ w > mx
        · rw [if_pos hc] at hfw
          have hrec := Option.some.inj hfw
          rw [← hrec]
          exact ⟨hw, hc⟩
        · rw [if_neg hc] at hfw
          exact absurd hfw (by simp)
      · rintro ⟨hv, hc⟩
        refine ⟨⟨v, mn, mx,
          if v < mn * (8/10) ∨ v > mx * (12/10) then "critical"
          else "warning"⟩, ?_, rfl⟩
        simp only [check_critical_values, h]
        rw [List.mem_filterMap]
        exact ⟨v, hv, by rw [if_pos hc]⟩
    · intro a ha
      simp only [check_critical_values, h] at ha
      rw [List.mem_filterMap] at ha
      obtain ⟨w, hw, hfw⟩ := ha
      by_cases hc : w < mn ∨ w > mx
      · rw [if_pos hc] at hfw
        have hrec := Option.some.inj hfw
        subst hrec
        by_cases hcrit : w < mn * (8/10) ∨ w > mx * (12/10)
        · simp [hcrit]
        · simp [hcrit]
      · rw [if_neg hc] at hfw
        exact absurd hfw (by simp)

/-- Witness for claim C4: a metric without a threshold entry yields no
alerts, and an out-of-band blood sugar value yields an alert. -/
theorem check_critical_values_spec_witness :
    check_critical_values "body_mass_index" [(500 : Rat)] = [] ∧
    (∃ a ∈ check_critical_values "blood_sugar" [(500 : Rat)],
      a.value = 500) :=
  ⟨(check_critical_values_spec "body_mass_index" [500]).1 rfl,
   (((check_critical_values_spec "blood_sugar" [500]).2 70 140 rfl).1
      500).mpr ⟨by simp, Or.inr (by norm_num)⟩⟩

/-! ### Claim C10 -/

/-- Claim C10: for a metric with a configured threshold, a value equal
to the minimum or to the maximum produces no alert, because both
out-of-band comparisons are strict. -/
theorem boundary_value_no_alert (name : String) (mn mx v : Rat)
    (h : CRITICAL_VALUES name = some (mn, mx)) (hv : v = mn ∨ v = mx) :
    check_critical_values name [v] = [] := by
  have hle := critical_values_min_le_max name mn mx h
  simp only [check_critical_values, h]
  rcases hv with h1 | h1
  · subst h1
    have hc : ¬(v < v ∨ v > mx) := by
      rintro (hlt | hgt)
      · exact lt_irrefl _ hlt
      · exact absurd hgt (not_lt.mpr hle)
    simp [hc]
    exact hle
  · subst h1
    have hc : ¬(v < mn ∨ v > v) := by
      rintro (hlt | hgt)
      · exact absurd hlt (not_lt.mpr hle)
      · exact lt_irrefl _ hgt
    simp [hc]
    exact hle

/-- Witness for claim C10: a heart rate of exactly 60 (the configured
minimum) produces no alert. -/
theorem boundary_value_no_alert_witness :
    check_critical_values "heart_rate" [(60 : Rat)] = [] :=
  boundary_value_no_alert "heart_rate" 60 100 60 rfl (Or.inl rfl)

/-! ### Claim C6 -/

/-- Claim C6: analysing exactly the two heart-rate measurements 70 at
t1 and 110 at t2 with t2 later than t1 yields latest 110, average 90,
min 70, max 110, trend increasing, and exactly one alert for the value
110 against the 60 to 100 threshold, with severity warning (which is in
the set of critical or warning).  The statement holds for every valid
embedding of the pandas sort. -/
theorem analyze_heart_rate_pair (sortImpl : List Measurement → List Measurement)
    (hs : ValidSort sortImpl) (t1 t2 : Int) (h12 : t1 < t2) :
    (analyze_health_metrics sortImpl
      [⟨"heart_rate", 70, t1⟩, ⟨"heart_rate", 110, t2⟩]).lookup "heart_rate" =
      some { latest_value := some 110, average := 90, min := some 70,
             max := some 110, trend := "increasing",
             critical_alerts := [{ value := 110, threshold_min := 60,
                                   threshold_max := 100,
                                   severity := "warning" }] } := by
  have hsort : sortImpl [⟨"heart_rate", 70, t1⟩, ⟨"heart_rate", 110, t2⟩] =
      [⟨"heart_rate", 70, t1⟩, ⟨"heart_rate", 110, t2⟩] :=
    validSort_pair hs h12
  norm_num +decide [analyze_health_metrics, uniqueNames, List.filter, hsort,
    summaryOfGroup, calculate_trend, check_critical_values, CRITICAL_VALUES,
    List.lookup, List.min?, List.max?, List.foldl, min_def, max_def,
    List.getLast?, Function.comp, List.filterMap_cons, List.filterMap_nil]

/-- Witness for claim C6 at the stable sort and timestamps 0 and 1. -/
theorem analyze_heart_rate_pair_witness :
    (analyze_health_metrics sortByRecordedAt
      [⟨"heart_rate", 70, 0⟩, ⟨"heart_rate", 110, 1⟩]).lookup "heart_rate" =
      some { latest_value := some 110, average := 90, min := some 70,
             max := some 110, trend := "increasing",
             critical_alerts := [{ value := 110, threshold_min := 60,
                                   threshold_max := 100,
                                   severity := "warning" }] } :=
  analyze_heart_rate_pair sortByRecordedAt validSort_sortByRecordedAt 0 1
    (by norm_num)

/-! ### Claim C7 -/

/-- Claim C7 counterexample: the claim asserts that entries tied on
`recorded_at` keep their submission order (a stable sort), so the
last-submitted tied entry supplies `latest`.  The pandas call uses the
default quicksort, which its documentation does not guarantee to be
stable, so the embedding quantifies over every sorted permutation:
`revTieSort` is one valid sort (permutation, sorted by `recorded_at`),
yet on two tied heart-rate entries it makes `latest` the value of the
first-submitted entry, 70, while the stable tie-break the claim
specifies (`latestBySubmissionOrder`) gives 110.  The trend flips to
`decreasing` for the same reason. -/
theorem latest_tie_counterexample :
    ValidSort revTieSort ∧
    latestBySubmissionOrder
      [⟨"heart_rate", 70, 5⟩, ⟨"heart_rate", 110, 5⟩] "heart_rate" =
      some 110 ∧
    (analyze_health_metrics revTieSort
      [⟨"heart_rate", 70, 5⟩, ⟨"heart_rate", 110, 5⟩]).lookup "heart_rate" =
      some { latest_value := some 70, average := 90, min := some 70,
             max := some 110, trend := "decreasing",
             critical_alerts := [{ value := 110, threshold_min := 60,
                                   threshold_max := 100,
                                   severity := "warning" }] } := by
  refine ⟨validSort_revTieSort, ?_, ?_⟩
  · norm_num +decide [latestBySubmissionOrder, List.filter,
      List.insertionSort, List.orderedInsert, recLE, List.getLast?]
  · have hsort : revTieSort [⟨"heart_rate", 70, 5⟩, ⟨"heart_rate", 110, 5⟩] =
        [⟨"heart_rate", 110, 5⟩, ⟨"heart_rate", 70, 5⟩] := by
      norm_num +decide [revTieSort, List.insertionSort, List.orderedInsert,
        recLE]
    norm_num +decide [analyze_health_metrics, uniqueNames, List.filter, hsort,
      summaryOfGroup, calculate_trend, check_critical_values, CRITICAL_VALUES,
      List.lookup, List.min?, List.max?, List.foldl, min_def, max_def,
      List.getLast?, Function.comp, List.filterMap_cons, List.filterMap_nil]

/-- Claim C7 amended: for every valid embedding of the pandas sort and
every nonempty metric group, `latest` is the value of some entry of the
group attaining the maximal `recorded_at`; when several entries share
that maximal timestamp, which of them supplies `latest` is unspecified
(the default pandas sort is not guaranteed stable). -/
theorem latest_value_attains_max (sortImpl : List Measurement → List Measurement)
    (hs : ValidSort sortImpl) (metrics_data : List Measurement) (name : String)
    (s : Summary)
    (hlook : (analyze_health_metrics sortImpl metrics_data).lookup name = some s)
    (hne : metrics_data.filter (fun m => m.metric_name == name) ≠ []) :
    ∃ m ∈ metrics_data.filter (fun m => m.metric_name == name),
      s.latest_value = some m.value ∧
      ∀ m2 ∈ metrics_data.filter (fun m => m.metric_name == name),
        m2.recorded_at ≤ m.recorded_at := by
  have hsum : s = summaryOfGroup name
      (sortImpl (metrics_data.filter (fun m => m.metric_name == name))) := by
    unfold analyze_health_metrics at hlook
    exact lookup_map_pair
      (fun n => summaryOfGroup n
        (sortImpl (metrics_data.filter (fun m => m.metric_name == n))))
      name s
      (uniqueNames (metrics_data.map (fun m => m.metric_name))) hlook
  obtain ⟨hperm, hsorted⟩ :=
    hs (metrics_data.filter (fun m => m.metric_name == name))
  have hlne :
      sortImpl (metrics_data.filter (fun m => m.metric_name == name)) ≠ [] := by
    intro h0
    rw [h0] at hperm
    exact hne (List.perm_nil.mp hperm.symm)
  refine ⟨(sortImpl
      (metrics_data.filter (fun m => m.metric_name == name))).getLast hlne,
    hperm.mem_iff.mp (List.getLast_mem hlne), ?_, ?_⟩
  · rw [hsum]
    simp only [summaryOfGroup]
    rw [List.getLast?_eq_getLast_of_ne_nil hlne]
    simp
  · intro m2 hm2
    exact sorted_getLast_max _ hsorted hlne m2 (hperm.mem_iff.mpr hm2)

/-- Witness for the amended claim C7 at a concrete one-point group. -/
theorem latest_value_attains_max_witness :
    ∃ m ∈ ([⟨"m", 1, 0⟩] : List Measurement).filter
        (fun x => x.metric_name == "m"),
      ({ latest_value := some 1, average := 1, min := some 1, max := some 1,
         trend := "insufficient_data",
         critical_alerts := [] } : Summary).latest_value = some m.value ∧
      ∀ m2 ∈ ([⟨"m", 1, 0⟩] : List Measurement).filter
          (fun x => x.metric_name == "m"),
        m2.recorded_at ≤ m.recorded_at :=
  latest_value_attains_max sortByRecordedAt validSort_sortByRecordedAt
    [⟨"m", 1, 0⟩] "m"
    { latest_value := some 1, average := 1, min := some 1, max := some 1,
      trend := "insufficient_data", critical_alerts := [] }
    (by norm_num +decide [analyze_health_metrics, uniqueNames, List.filter,
      sortByRecordedAt, List.insertionSort, List.orderedInsert,
      summaryOfGroup, calculate_trend, check_critical_values, CRITICAL_VALUES,
      List.lookup, List.min?, List.max?, List.foldl, List.getLast?])
    (by norm_num +decide [List.filter])

end CareSync
